import Mathlib

/-!
Verification of the epoch accumulation and scoring engine of the antenna-mount
evaluation tool.  The embedding models the `UbxEpochAccumulator` state machine,
the per-epoch feature builder, and the score engine (`mapLinearToScore`,
`scoreFromAggregates`).  Python floats are modelled as rationals; the two
transcendental aggregates (`elevWeightedCoverage` via `sin`,
`highElevCn0Std` via `sqrt`) are modelled over the reals.  A non-finite
pseudorange residual is modelled as `none`.
-/

open Real

/-- One satellite snapshot sample (one NAV-SAT repeating-block entry).
`prRes` is `none` when the residual is absent or non-finite. -/
structure SatSample where
  gnssId : ℤ
  svId : ℤ
  elevDeg : ℚ
  azimDeg : ℚ
  cn0 : ℚ
  prRes : Option ℚ
  hasMultipathFlag : Bool
deriving DecidableEq

/-- One signal snapshot sample (one NAV-SIG repeating-block entry, after the
accumulator has attached the optional elevation). -/
structure SigSample where
  gnssId : ℤ
  svId : ℤ
  freqId : ℤ
  cn0 : ℚ
  hasLock : Bool
  hasCycleSlip : Bool
  elevDeg : Option ℚ
  sigId : ℤ
deriving DecidableEq

/-- The per-epoch feature record emitted at an epoch boundary. -/
structure EpochFeatures where
  label : String
  utcTowMs : ℤ
  numTracked : ℕ
  meanCn0 : ℚ
  fracAbove70 : ℚ
  elevWeightedCoverage : ℝ
  meanAbsPrRes : ℚ
  highElevCn0Std : ℝ
  dualBandFrac : ℚ
  pdop : Option ℚ
  tdop : Option ℚ
  noSlipFrac : ℚ

/-- The accumulator state: one open epoch's buffers plus the latest DOP pair. -/
structure UbxEpochAccumulator where
  label : String
  currentItow : Option ℤ
  satSamples : List SatSample
  sigSamples : List SigSample
  latestPdop : Option ℚ
  latestTdop : Option ℚ

/-- `numTracked`: the number of satellite samples with `cn0 > 0`. -/
def numTrackedOf (sats : List SatSample) : ℕ :=
  (sats.filter (fun s => decide (0 < s.cn0))).length

/-- `meanCn0`: `sum(s.cn0 for s in sats if s.cn0 > 0) / max(1, numTracked)`. -/
def meanCn0Of (sats : List SatSample) : ℚ :=
  ((sats.filter (fun s => decide (0 < s.cn0))).map SatSample.cn0).sum
    / (max 1 (numTrackedOf sats) : ℚ)

/-- `fracAbove70`: `len(highElev) / max(1, numTracked) if numTracked > 0 else 0`
where `highElev = [s for s in sats if s.elevDeg >= 70 and s.cn0 > 0]`. -/
def fracAbove70Of (sats : List SatSample) : ℚ :=
  if 0 < numTrackedOf sats then
    ((sats.filter (fun s => decide (70 ≤ s.elevDeg ∧ 0 < s.cn0))).length : ℚ)
      / (max 1 (numTrackedOf sats) : ℚ)
  else 0

/-- `elevWeightedCoverage`: `sum(cn0 * sin(radians(elev)))/sum(cn0)` over the
tracked satellites, `0` when the denominator is not positive. -/
noncomputable def elevWeightedCoverageOf (sats : List SatSample) : ℝ :=
  let tracked := sats.filter (fun s => decide (0 < s.cn0))
  let num := (tracked.map (fun s => (s.cn0 : ℝ) * Real.sin ((s.elevDeg : ℝ) * π / 180))).sum
  let den := (tracked.map (fun s => (s.cn0 : ℝ))).sum
  if 0 < den then num / den else 0

/-- `meanAbsPrRes`: mean of the absolute finite residuals, with a
`max(1, len)` guard. -/
def meanAbsPrResOf (sats : List SatSample) : ℚ :=
  let vals := (sats.filterMap SatSample.prRes).map (fun x => |x|)
  vals.sum / (max 1 vals.length : ℚ)

/-- The `cn0` values of tracked satellites at elevation at least 45 degrees. -/
def highElevCn0ValsOf (sats : List SatSample) : List ℚ :=
  (sats.filter (fun s => decide (45 ≤ s.elevDeg ∧ 0 < s.cn0))).map SatSample.cn0

/-- The population variance of `highElevCn0ValsOf`, with `max(1, len)` guards. -/
def highElevCn0VarOf (sats : List SatSample) : ℚ :=
  let vals := highElevCn0ValsOf sats
  let mu := vals.sum / (max 1 vals.length : ℚ)
  (vals.map (fun x => (x - mu) * (x - mu))).sum / (max 1 vals.length : ℚ)

/-- `highElevCn0Std`: square root of the population variance. -/
noncomputable def highElevCn0StdOf (sats : List SatSample) : ℝ :=
  Real.sqrt (highElevCn0VarOf sats : ℝ)

/-- The distinct `(gnssId, svId)` keys occurring in the signal buffer. -/
def sigKeys (sigs : List SigSample) : List (ℤ × ℤ) :=
  (sigs.map (fun g => (g.gnssId, g.svId))).dedup

/-- The distinct `freqId`s carried by signal samples of key `k`. -/
def freqIdsOf (sigs : List SigSample) (k : ℤ × ℤ) : List ℤ :=
  ((sigs.filter (fun g => decide (g.gnssId = k.1 ∧ g.svId = k.2))).map SigSample.freqId).dedup

/-- `dualBandFrac`: fraction of `(gnssId, svId)` groups carrying at least two
distinct `freqId`s, `0` when there are no groups. -/
def dualBandFracOf (sigs : List SigSample) : ℚ :=
  if (sigKeys sigs).length = 0 then 0
  else ((sigKeys sigs).countP (fun k => decide (2 ≤ (freqIdsOf sigs k).length)) : ℚ)
        / ((sigKeys sigs).length : ℚ)

/-- `noSlipFrac`: fraction of signal samples without a cycle slip, `1` when the
signal buffer is empty. -/
def noSlipFracOf (sigs : List SigSample) : ℚ :=
  if sigs.length = 0 then 1
  else ((sigs.countP (fun g => !g.hasCycleSlip)) : ℚ) / (sigs.length : ℚ)

namespace UbxEpochAccumulator

/-- `buildFeatures`: reduce the buffered samples of the epoch tagged `itow`
into an `EpochFeatures` record. -/
noncomputable def buildFeatures (acc : UbxEpochAccumulator) (itow : ℤ) : EpochFeatures :=
  { label := acc.label
    utcTowMs := itow
    numTracked := numTrackedOf acc.satSamples
    meanCn0 := meanCn0Of acc.satSamples
    fracAbove70 := fracAbove70Of acc.satSamples
    elevWeightedCoverage := elevWeightedCoverageOf acc.satSamples
    meanAbsPrRes := meanAbsPrResOf acc.satSamples
    highElevCn0Std := highElevCn0StdOf acc.satSamples
    dualBandFrac := dualBandFracOf acc.sigSamples
    pdop := acc.latestPdop
    tdop := acc.latestTdop
    noSlipFrac := noSlipFracOf acc.sigSamples }

/-- `onNavSat`: adopt the time tag when no epoch is open, then replace the
satellite buffer wholesale with the decoded snapshot. -/
def onNavSat (acc : UbxEpochAccumulator) (itow : ℤ) (samples : List SatSample) :
    UbxEpochAccumulator :=
  { acc with
    currentItow := some (acc.currentItow.getD itow)
    satSamples := samples }

/-- One decoded NAV-SIG repeating-block entry, before elevation attachment. -/
structure NavSigEntry where
  gnssId : ℤ
  svId : ℤ
  sigId : ℤ
  freqId : ℤ
  cn0 : ℚ
  qualityInd : ℤ

/-- `onNavSig`: adopt the time tag when no epoch is open, then replace the
signal buffer; each entry gets `hasLock` from `qualityInd >= 4`,
`hasCycleSlip = false`, and the elevation of the first satellite sample
sharing `(gnssId, svId)` (else `none`). -/
def onNavSig (acc : UbxEpochAccumulator) (itow : ℤ) (entries : List NavSigEntry) :
    UbxEpochAccumulator :=
  { acc with
    currentItow := some (acc.currentItow.getD itow)
    sigSamples := entries.map (fun e =>
      { gnssId := e.gnssId
        svId := e.svId
        freqId := e.freqId
        cn0 := e.cn0
        hasLock := decide ((4 : ℤ) ≤ e.qualityInd)
        hasCycleSlip := false
        elevDeg := (acc.satSamples.find?
          (fun s => decide (s.gnssId = e.gnssId ∧ s.svId = e.svId))).map SatSample.elevDeg
        sigId := e.sigId }) }

/-- `onNavDop`: overwrite the DOP pair unconditionally (raw values carry a
0.01 scale). -/
def onNavDop (acc : UbxEpochAccumulator) (pDOP tDOP : ℚ) : UbxEpochAccumulator :=
  { acc with
    latestPdop := some (pDOP * 0.01)
    latestTdop := some (tDOP * 0.01) }

/-- One decoded RXM-MEASX repeating-block entry (cycle-slip update). -/
structure MeasxEntry where
  gnssId : ℤ
  svId : ℤ
  hasCycleSlip : Bool

/-- Overwrite `hasCycleSlip` of the first signal sample matching
`(g, v)`; leave the list unchanged when no sample matches. -/
def setSlipFirst : List SigSample → ℤ → ℤ → Bool → List SigSample
  | [], _, _, _ => []
  | s :: rest, g, v, b =>
    if s.gnssId = g ∧ s.svId = v then { s with hasCycleSlip := b } :: rest
    else s :: setSlipFirst rest g v b

/-- `onRxmMeasx`: adopt the time tag when no epoch is open, then for each
update in order overwrite the first matching signal sample's slip flag. -/
def onRxmMeasx (acc : UbxEpochAccumulator) (itow : ℤ) (entries : List MeasxEntry) :
    UbxEpochAccumulator :=
  { acc with
    currentItow := some (acc.currentItow.getD itow)
    sigSamples := entries.foldl
      (fun sigs e => setSlipFirst sigs e.gnssId e.svId e.hasCycleSlip) acc.sigSamples }

/-- `flushIfEpochChanged`: the epoch-boundary algorithm, returning the new
state together with the optionally emitted features. -/
noncomputable def flushIfEpochChanged (acc : UbxEpochAccumulator) (incomingItow : ℤ) :
    UbxEpochAccumulator × Option EpochFeatures :=
  match acc.currentItow with
  | none => ({ acc with currentItow := some incomingItow }, none)
  | some cur =>
    if incomingItow = cur then (acc, none)
    else
      ({ acc with currentItow := some incomingItow, satSamples := [], sigSamples := [] },
        some (buildFeatures acc cur))

end UbxEpochAccumulator

/-- The caller-supplied component weights. -/
structure ScoreWeights where
  satelliteAvailability : ℚ
  signalQuality : ℚ
  multipathResistance : ℚ
  dualBandCoverage : ℚ
  skyView : ℚ
  geometryQuality : ℚ
  lockContinuity : ℚ

/-- The per-label score record. -/
structure Scores where
  label : String
  satelliteAvailability : ℚ
  signalQuality : ℚ
  multipathResistance : ℚ
  dualBandCoverage : ℚ
  skyView : ℚ
  geometryQuality : ℚ
  lockContinuity : ℚ
  summaryScore : ℚ

/-- `clamp(v, lo, hi) = max(lo, min(hi, v))`. -/
def clamp (v lo hi : ℚ) : ℚ := max lo (min hi v)

/-- The piecewise-linear score map: `t = clamp((v-lo)/(hi-lo), 0, 1)`,
mirrored when `invert`, mapped onto `[1, 10]`; `5` when the range is
degenerate. -/
def mapLinearToScore (v vLo vHi : ℚ) (invert : Bool) : ℚ :=
  if vHi = vLo then 5
  else
    let t := clamp ((v - vLo) / (vHi - vLo)) 0 1
    let t2 := if invert then 1 - t else t
    1 + 9 * t2

/-- One persisted `EpochFeatures` row: a label plus ten optional numeric
fields (an empty CSV cell is `none`). -/
structure Row where
  label : String
  numTracked : Option ℚ
  meanCn0 : Option ℚ
  fracAbove70 : Option ℚ
  elevWeightedCoverage : Option ℚ
  meanAbsPrRes : Option ℚ
  highElevCn0Std : Option ℚ
  dualBandFrac : Option ℚ
  pdop : Option ℚ
  tdop : Option ℚ
  noSlipFrac : Option ℚ

/-- The ten per-field value lists accumulated over the matching rows. -/
structure FieldLists where
  numTracked : List ℚ
  meanCn0 : List ℚ
  fracAbove70 : List ℚ
  elevWeightedCoverage : List ℚ
  meanAbsPrRes : List ℚ
  highElevCn0Std : List ℚ
  dualBandFrac : List ℚ
  pdop : List ℚ
  tdop : List ℚ
  noSlipFrac : List ℚ

/-- The empty field lists. -/
def emptyFieldLists : FieldLists := ⟨[], [], [], [], [], [], [], [], [], []⟩

/-- Append one matching row's present fields to the accumulated lists. -/
def pushRow (st : FieldLists) (r : Row) : FieldLists where
  numTracked := st.numTracked ++ r.numTracked.toList
  meanCn0 := st.meanCn0 ++ r.meanCn0.toList
  fracAbove70 := st.fracAbove70 ++ r.fracAbove70.toList
  elevWeightedCoverage := st.elevWeightedCoverage ++ r.elevWeightedCoverage.toList
  meanAbsPrRes := st.meanAbsPrRes ++ r.meanAbsPrRes.toList
  highElevCn0Std := st.highElevCn0Std ++ r.highElevCn0Std.toList
  dualBandFrac := st.dualBandFrac ++ r.dualBandFrac.toList
  pdop := st.pdop ++ r.pdop.toList
  tdop := st.tdop ++ r.tdop.toList
  noSlipFrac := st.noSlipFrac ++ r.noSlipFrac.toList

/-- The aggregation loop of `scoreFromAggregates`: rows whose label differs
are skipped, matching rows contribute their present fields in order. -/
def collectRows (rows : List Row) (lab : String) : FieldLists :=
  rows.foldl (fun st r => if r.label = lab then pushRow st r else st) emptyFieldLists

/-- `avg(x, default) = sum(x)/len(x) if len(x) > 0 else default`. -/
def avg (x : List ℚ) (default : ℚ) : ℚ :=
  if 0 < x.length then x.sum / (x.length : ℚ) else default

/-- The ten per-field aggregates fed into the component scores. -/
structure Aggregates where
  aNumTracked : ℚ
  aMeanCn0 : ℚ
  aFracAbove70 : ℚ
  aElevWeightedCoverage : ℚ
  aMeanAbsPrRes : ℚ
  aHighElevCn0Std : ℚ
  aDualBandFrac : ℚ
  aPdop : ℚ
  aTdop : ℚ
  aNoSlipFrac : ℚ

/-- The aggregation phase of `scoreFromAggregates`, with its fixed fallbacks. -/
def aggregatesOf (rows : List Row) (lab : String) : Aggregates :=
  let L := collectRows rows lab
  { aNumTracked := avg L.numTracked 0
    aMeanCn0 := avg L.meanCn0 0
    aFracAbove70 := avg L.fracAbove70 0
    aElevWeightedCoverage := avg L.elevWeightedCoverage 0
    aMeanAbsPrRes := avg L.meanAbsPrRes 10
    aHighElevCn0Std := avg L.highElevCn0Std 4
    aDualBandFrac := avg L.dualBandFrac 0
    aPdop := avg L.pdop 3
    aTdop := avg L.tdop 2
    aNoSlipFrac := avg L.noSlipFrac 1 }

/-- The sum of the seven component weights. -/
def totalWeightOf (w : ScoreWeights) : ℚ :=
  w.satelliteAvailability + w.signalQuality + w.multipathResistance
    + w.dualBandCoverage + w.skyView + w.geometryQuality + w.lockContinuity

/-- The scoring phase of `scoreFromAggregates`: the seven component scores
with their fixed calibration endpoints and the weighted summary. -/
def scoresOfAggregates (lab : String) (a : Aggregates) (w : ScoreWeights) : Scores :=
  let sAvail := mapLinearToScore a.aNumTracked 4 30 false
  let sCn0 := mapLinearToScore a.aMeanCn0 25 50 false
  let sPrRes := mapLinearToScore a.aMeanAbsPrRes 5 0.2 true
  let sFlicker := mapLinearToScore a.aHighElevCn0Std 6 0.5 true
  let sMultipath := 0.6 * sPrRes + 0.4 * sFlicker
  let sDual := mapLinearToScore a.aDualBandFrac 0 0.8 false
  let sSkyElev := mapLinearToScore a.aElevWeightedCoverage 0.25 0.80 false
  let sHighElevPresence := mapLinearToScore a.aFracAbove70 0 0.6 false
  let sSky := 0.6 * sSkyElev + 0.4 * sHighElevPresence
  let sPdop := mapLinearToScore a.aPdop 4 0.8 true
  let sTdop := mapLinearToScore a.aTdop 3 0.6 true
  let sGeom := 0.6 * sPdop + 0.4 * sTdop
  let sLock := mapLinearToScore a.aNoSlipFrac 0.85 0.999 false
  let summary :=
    (sAvail * w.satelliteAvailability
      + sCn0 * w.signalQuality
      + sMultipath * w.multipathResistance
      + sDual * w.dualBandCoverage
      + sSky * w.skyView
      + sGeom * w.geometryQuality
      + sLock * w.lockContinuity) / totalWeightOf w
  { label := lab
    satelliteAvailability := sAvail
    signalQuality := sCn0
    multipathResistance := sMultipath
    dualBandCoverage := sDual
    skyView := sSky
    geometryQuality := sGeom
    lockContinuity := sLock
    summaryScore := summary }

/-- `scoreFromAggregates(rows, label, weights)`: aggregate the matching rows,
then score the aggregates. -/
def scoreFromAggregates (rows : List Row) (lab : String) (w : ScoreWeights) : Scores :=
  scoresOfAggregates lab (aggregatesOf rows lab) w

/-- Modelled from the spec: the arithmetic mean of the values one field
supplies across the rows matching `lab`, with a fallback when no matching
row supplies a value. -/
def specFieldMean (rows : List Row) (lab : String) (fld : Row → Option ℚ) (fallback : ℚ) : ℚ :=
  let vs := (rows.filter (fun r => decide (r.label = lab))).filterMap fld
  if vs = [] then fallback else vs.sum / (vs.length : ℚ)

/-! ### Helper lemmas for the score map -/

lemma clamp01_nonneg (t : ℚ) : 0 ≤ clamp t 0 1 :=
  le_max_left 0 _

lemma clamp01_le_one (t : ℚ) : clamp t 0 1 ≤ 1 :=
  max_le (by norm_num) (min_le_left 1 t)

lemma clamp01_mono {t t' : ℚ} (h : t ≤ t') : clamp t 0 1 ≤ clamp t' 0 1 :=
  max_le_max le_rfl (min_le_min le_rfl h)

lemma clamp01_of_nonpos {t : ℚ} (h : t ≤ 0) : clamp t 0 1 = 0 := by
  have : min 1 t ≤ 0 := le_trans (min_le_right 1 t) h
  simp only [clamp]
  exact max_eq_left this

lemma clamp01_of_one_le {t : ℚ} (h : 1 ≤ t) : clamp t 0 1 = 1 := by
  simp only [clamp, min_eq_left h]
  exact max_eq_right (by norm_num)

/-- C5: `mapLinearToScore(v, lo, lo, invert)` returns exactly `5` whenever the
two range endpoints are equal. -/
theorem mapLinearToScore_degenerate_range (v lo : ℚ) (invert : Bool) :
    mapLinearToScore v lo lo invert = 5 := by
  simp [mapLinearToScore]

/-- C4 counterexample: with `lo = 1`, `hi = 0` (so `lo ≠ hi`), `invert = false`
and `0 ≤ 1`, the score strictly decreases from value `0` to value `1`, so the
map is not monotone non-decreasing for every pair of distinct endpoints. -/
theorem mapLinearToScore_not_monotone_on_reversed_range :
    (1 : ℚ) ≠ 0 ∧ (0 : ℚ) ≤ 1 ∧
      ¬ mapLinearToScore 0 1 0 false ≤ mapLinearToScore 1 1 0 false := by
  refine ⟨by norm_num, by norm_num, ?_⟩
  norm_num [mapLinearToScore, clamp]

/-- C4 (amended): for `lo < hi` the map is monotone non-decreasing in the
value when `invert = false` and non-increasing when `invert = true` (for a
reversed range `hi < lo` the directions flip); for every input the result
lies in `[1, 10]`; and for `lo < hi` it saturates outside `[lo, hi]`. -/
theorem mapLinearToScore_monotone_and_range (lo hi v v' : ℚ) (invert : Bool) :
    (lo < hi → v ≤ v' →
      (invert = false →
        mapLinearToScore v lo hi invert ≤ mapLinearToScore v' lo hi invert) ∧
      (invert = true →
        mapLinearToScore v' lo hi invert ≤ mapLinearToScore v lo hi invert)) ∧
    (1 ≤ mapLinearToScore v lo hi invert ∧ mapLinearToScore v lo hi invert ≤ 10) ∧
    (lo < hi → v ≤ lo →
      mapLinearToScore v lo hi invert = if invert then 10 else 1) ∧
    (lo < hi → hi ≤ v →
      mapLinearToScore v lo hi invert = if invert then 1 else 10) := by
  refine ⟨?_, ?_, ?_, ?_⟩
  · intro hlt hvv'
    have hne : hi ≠ lo := ne_of_gt hlt
    have hd : (0 : ℚ) < hi - lo := sub_pos.2 hlt
    have ht : (v - lo) / (hi - lo) ≤ (v' - lo) / (hi - lo) :=
      (div_le_div_iff_of_pos_right hd).2 (by linarith)
    have hcl := clamp01_mono ht
    constructor
    · rintro rfl
      simp only [mapLinearToScore, if_neg hne, Bool.false_eq_true, if_false]
      linarith
    · rintro rfl
      simp only [mapLinearToScore, if_neg hne, if_true]
      linarith
  · by_cases hne : hi = lo
    · rw [mapLinearToScore, if_pos hne]
      norm_num
    · have h0 := clamp01_nonneg ((v - lo) / (hi - lo))
      have h1 := clamp01_le_one ((v - lo) / (hi - lo))
      cases invert <;>
        simp only [mapLinearToScore, if_neg hne, Bool.false_eq_true, if_false, if_true] <;>
        constructor <;> linarith
  · intro hlt hv
    have hne : hi ≠ lo := ne_of_gt hlt
    have hd : (0 : ℚ) < hi - lo := sub_pos.2 hlt
    have ht : (v - lo) / (hi - lo) ≤ 0 :=
      div_nonpos_of_nonpos_of_nonneg (by linarith) hd.le
    rw [mapLinearToScore, if_neg hne]
    simp only [clamp01_of_nonpos ht]
    cases invert <;> norm_num
  · intro hlt hv
    have hne : hi ≠ lo := ne_of_gt hlt
    have hd : (0 : ℚ) < hi - lo := sub_pos.2 hlt
    have ht : (1 : ℚ) ≤ (v - lo) / (hi - lo) := by
      rw [le_div_iff₀ hd]
      linarith
    rw [mapLinearToScore, if_neg hne]
    simp only [clamp01_of_one_le ht]
    cases invert <;> norm_num

/-- C4 witness: the amended statement at `lo = 0 < hi = 1`, `v = 0 ≤ v' = 1`,
`invert = false`: monotone step and range membership both instantiate. -/
theorem mapLinearToScore_monotone_and_range_witness :
    mapLinearToScore 0 0 1 false ≤ mapLinearToScore 1 0 1 false ∧
      1 ≤ mapLinearToScore 7 0 1 false ∧ mapLinearToScore 7 0 1 false ≤ 10 :=
  ⟨((mapLinearToScore_monotone_and_range 0 1 0 1 false).1 (by norm_num) (by norm_num)).1 rfl,
    (mapLinearToScore_monotone_and_range 0 1 7 7 false).2.1⟩

/-! ### Epoch-boundary and frame properties of the accumulator -/

/-- C1: `flushIfEpochChanged` adopts the tag and emits nothing when no epoch
is open; is a complete no-op on the same tag; and otherwise emits the features
built from the standing buffers with the old tag as `utcTowMs`, then sets the
tag to the incoming one and clears both sample buffers. -/
theorem flushIfEpochChanged_spec (acc : UbxEpochAccumulator) (t : ℤ) :
    (acc.currentItow = none →
      acc.flushIfEpochChanged t = ({ acc with currentItow := some t }, none)) ∧
    (acc.currentItow = some t → acc.flushIfEpochChanged t = (acc, none)) ∧
    (∀ c, acc.currentItow = some c → t ≠ c →
      acc.flushIfEpochChanged t =
        ({ acc with currentItow := some t, satSamples := [], sigSamples := [] },
          some (acc.buildFeatures c)) ∧
      (acc.buildFeatures c).utcTowMs = c) := by
  refine ⟨?_, ?_, ?_⟩
  · intro h
    simp [UbxEpochAccumulator.flushIfEpochChanged, h]
  · intro h
    simp [UbxEpochAccumulator.flushIfEpochChanged, h]
  · intro c hc hne
    refine ⟨?_, rfl⟩
    simp [UbxEpochAccumulator.flushIfEpochChanged, hc, hne]

/-- A concrete accumulator state with an open epoch, used by witnesses. -/
def accOpen : UbxEpochAccumulator :=
  { label := "w"
    currentItow := some 1
    satSamples := [⟨0, 1, 80, 0, 40, some (1/2), false⟩]
    sigSamples := [⟨0, 1, 0, 40, true, false, some 80, 0⟩]
    latestPdop := some (3/2)
    latestTdop := some (4/5) }

/-- C1 witness: the boundary branch of `flushIfEpochChanged_spec` at the
concrete state `accOpen` and incoming tag `2 ≠ 1`. -/
theorem flushIfEpochChanged_spec_witness :
    accOpen.flushIfEpochChanged 2 =
      ({ accOpen with currentItow := some 2, satSamples := [], sigSamples := [] },
        some (accOpen.buildFeatures 1)) ∧
    (accOpen.buildFeatures 1).utcTowMs = 1 :=
  (flushIfEpochChanged_spec accOpen 2).2.2 1 rfl (by decide)

/-- C9: a flush that closes an epoch clears only the two sample buffers; the
label and the latest DOP pair survive, and the emitted features inherit
exactly that DOP pair. -/
theorem flushIfEpochChanged_frame (acc : UbxEpochAccumulator) (t c : ℤ)
    (hc : acc.currentItow = some c) (hne : t ≠ c) :
    ((acc.flushIfEpochChanged t).1.label = acc.label ∧
      (acc.flushIfEpochChanged t).1.latestPdop = acc.latestPdop ∧
      (acc.flushIfEpochChanged t).1.latestTdop = acc.latestTdop ∧
      (acc.flushIfEpochChanged t).1.satSamples = [] ∧
      (acc.flushIfEpochChanged t).1.sigSamples = [] ∧
      (acc.flushIfEpochChanged t).1.currentItow = some t) ∧
    (acc.flushIfEpochChanged t).2 = some (acc.buildFeatures c) ∧
    (acc.buildFeatures c).pdop = acc.latestPdop ∧
    (acc.buildFeatures c).tdop = acc.latestTdop := by
  have h : acc.flushIfEpochChanged t =
      ({ acc with currentItow := some t, satSamples := [], sigSamples := [] },
        some (acc.buildFeatures c)) := by
    simp [UbxEpochAccumulator.flushIfEpochChanged, hc, hne]
  rw [h]
  exact ⟨⟨rfl, rfl, rfl, rfl, rfl, rfl⟩, rfl, rfl, rfl⟩

/-- C9 witness: the frame property at the concrete state `accOpen`, whose DOP
pair is set, with incoming tag `2 ≠ 1`. -/
theorem flushIfEpochChanged_frame_witness :
    ((accOpen.flushIfEpochChanged 2).1.label = accOpen.label ∧
      (accOpen.flushIfEpochChanged 2).1.latestPdop = accOpen.latestPdop ∧
      (accOpen.flushIfEpochChanged 2).1.latestTdop = accOpen.latestTdop ∧
      (accOpen.flushIfEpochChanged 2).1.satSamples = [] ∧
      (accOpen.flushIfEpochChanged 2).1.sigSamples = [] ∧
      (accOpen.flushIfEpochChanged 2).1.currentItow = some 2) ∧
    (accOpen.flushIfEpochChanged 2).2 = some (accOpen.buildFeatures 1) ∧
    (accOpen.buildFeatures 1).pdop = accOpen.latestPdop ∧
    (accOpen.buildFeatures 1).tdop = accOpen.latestTdop :=
  flushIfEpochChanged_frame accOpen 2 1 rfl (by decide)

/-- C10: a satellite snapshot replaces only the satellite buffer — signal
buffer, DOP pair, label, and an already-set epoch tag survive — and a signal
snapshot fixes each sample's optional elevation from the satellite buffer as
it stands at signal-ingestion time, so a later satellite snapshot never
touches the elevations already buffered. -/
theorem onNavSat_frame (acc : UbxEpochAccumulator) (itow : ℤ)
    (samples : List SatSample) :
    ((acc.onNavSat itow samples).satSamples = samples ∧
      (acc.onNavSat itow samples).sigSamples = acc.sigSamples ∧
      (acc.onNavSat itow samples).latestPdop = acc.latestPdop ∧
      (acc.onNavSat itow samples).latestTdop = acc.latestTdop ∧
      (acc.onNavSat itow samples).label = acc.label) ∧
    (∀ c, acc.currentItow = some c → (acc.onNavSat itow samples).currentItow = some c) ∧
    (∀ (entries : List UbxEpochAccumulator.NavSigEntry) (itow' : ℤ)
        (samples' : List SatSample),
      ((acc.onNavSig itow entries).onNavSat itow' samples').sigSamples =
        (acc.onNavSig itow entries).sigSamples ∧
      (acc.onNavSig itow entries).sigSamples.map SigSample.elevDeg =
        entries.map (fun e => (acc.satSamples.find?
          (fun s => decide (s.gnssId = e.gnssId ∧ s.svId = e.svId))).map
            SatSample.elevDeg)) := by
  refine ⟨⟨rfl, rfl, rfl, rfl, rfl⟩, ?_, ?_⟩
  · intro c h
    simp [UbxEpochAccumulator.onNavSat, h]
  · intro entries itow' samples'
    refine ⟨rfl, ?_⟩
    simp [UbxEpochAccumulator.onNavSig, List.map_map, Function.comp_def]

/-- C10 witness: the frame property at the concrete state `accOpen`, with a
fresh satellite sample list and one signal entry. -/
theorem onNavSat_frame_witness :
    ((accOpen.onNavSat 1 []).satSamples = [] ∧
      (accOpen.onNavSat 1 []).sigSamples = accOpen.sigSamples ∧
      (accOpen.onNavSat 1 []).latestPdop = accOpen.latestPdop ∧
      (accOpen.onNavSat 1 []).latestTdop = accOpen.latestTdop ∧
      (accOpen.onNavSat 1 []).label = accOpen.label) ∧
    (accOpen.onNavSat 1 []).currentItow = some 1 := by
  refine ⟨(onNavSat_frame accOpen 1 []).1, ?_⟩
  exact (onNavSat_frame accOpen 1 []).2.1 1 rfl

/-! ### Cycle-slip ingestion -/

lemma setSlipFirst_no_match (sigs : List SigSample) (g v : ℤ) (b : Bool)
    (h : ∀ s ∈ sigs, ¬(s.gnssId = g ∧ s.svId = v)) :
    UbxEpochAccumulator.setSlipFirst sigs g v b = sigs := by
  induction sigs with
  | nil => rfl
  | cons s rest ih =>
    simp only [UbxEpochAccumulator.setSlipFirst]
    rw [if_neg (h s (List.mem_cons_self s rest)),
      ih (fun x hx => h x (List.mem_cons_of_mem s hx))]

lemma setSlipFirst_first_match (pre post : List SigSample) (s : SigSample)
    (g v : ℤ) (b : Bool) (hpre : ∀ s' ∈ pre, ¬(s'.gnssId = g ∧ s'.svId = v))
    (hs : s.gnssId = g ∧ s.svId = v) :
    UbxEpochAccumulator.setSlipFirst (pre ++ s :: post) g v b =
      pre ++ { s with hasCycleSlip := b } :: post := by
  induction pre with
  | nil =>
    simp only [List.nil_append, UbxEpochAccumulator.setSlipFirst]
    rw [if_pos hs]
  | cons p rest ih =>
    simp only [List.cons_append, UbxEpochAccumulator.setSlipFirst, List.append_eq]
    rw [if_neg (hpre p (List.mem_cons_self p rest)),
      ih (fun x hx => hpre x (List.mem_cons_of_mem p hx))]

lemma foldl_setSlipFirst_no_match (entries : List UbxEpochAccumulator.MeasxEntry)
    (sigs : List SigSample)
    (h : ∀ e ∈ entries, ∀ s ∈ sigs, ¬(s.gnssId = e.gnssId ∧ s.svId = e.svId)) :
    entries.foldl
        (fun l e => UbxEpochAccumulator.setSlipFirst l e.gnssId e.svId e.hasCycleSlip)
        sigs = sigs := by
  induction entries with
  | nil => rfl
  | cons e rest ih =>
    simp only [List.foldl_cons]
    rw [setSlipFirst_no_match sigs e.gnssId e.svId e.hasCycleSlip
      (h e (List.mem_cons_self e rest))]
    exact ih (fun x hx => h x (List.mem_cons_of_mem e hx))

/-- A fresh accumulator state (no epoch open yet), used as a counterexample
input. -/
def accFresh : UbxEpochAccumulator :=
  { label := "x"
    currentItow := none
    satSamples := []
    sigSamples := []
    latestPdop := none
    latestTdop := none }

/-- C6 counterexample: on the fresh state, the single update `(1, 1, true)`
matches no buffered signal sample, yet the ingestion is not a no-op on the
accumulator state — it adopts the incoming time tag `5` as the epoch tag. -/
theorem onRxmMeasx_not_state_noop :
    (∀ s ∈ accFresh.sigSamples, ¬(s.gnssId = 1 ∧ s.svId = 1)) ∧
      accFresh.onRxmMeasx 5 [⟨1, 1, true⟩] ≠ accFresh := by
  constructor
  · intro s hs
    simp [accFresh] at hs
  · intro h
    have h' := congrArg UbxEpochAccumulator.currentItow h
    simp [UbxEpochAccumulator.onRxmMeasx, accFresh] at h'

/-- C6 (amended): cycle-slip ingestion overwrites the `hasCycleSlip` flag of
only the first buffered signal sample matching each update's key and touches
no other field of it; non-matching updates never change the signal buffer and
never error; and the operation as a whole leaves the accumulator state
entirely unchanged when the epoch tag is already set — when it is unset, the
only other effect is adopting the incoming tag. -/
theorem onRxmMeasx_spec :
    (∀ (sigs : List SigSample) (g v : ℤ) (b : Bool),
      (∀ s ∈ sigs, ¬(s.gnssId = g ∧ s.svId = v)) →
        UbxEpochAccumulator.setSlipFirst sigs g v b = sigs) ∧
    (∀ (pre post : List SigSample) (s : SigSample) (g v : ℤ) (b : Bool),
      (∀ s' ∈ pre, ¬(s'.gnssId = g ∧ s'.svId = v)) →
      (s.gnssId = g ∧ s.svId = v) →
        UbxEpochAccumulator.setSlipFirst (pre ++ s :: post) g v b =
          pre ++ { s with hasCycleSlip := b } :: post) ∧
    (∀ (acc : UbxEpochAccumulator) (itow : ℤ)
        (entries : List UbxEpochAccumulator.MeasxEntry) (c : ℤ),
      acc.currentItow = some c →
      (∀ e ∈ entries, ∀ s ∈ acc.sigSamples, ¬(s.gnssId = e.gnssId ∧ s.svId = e.svId)) →
        acc.onRxmMeasx itow entries = acc) ∧
    (∀ (acc : UbxEpochAccumulator) (itow : ℤ)
        (entries : List UbxEpochAccumulator.MeasxEntry),
      acc.currentItow = none →
      (∀ e ∈ entries, ∀ s ∈ acc.sigSamples, ¬(s.gnssId = e.gnssId ∧ s.svId = e.svId)) →
        acc.onRxmMeasx itow entries = { acc with currentItow := some itow }) := by
  refine ⟨setSlipFirst_no_match, setSlipFirst_first_match, ?_, ?_⟩
  · intro acc itow entries c hc hno
    have hf := foldl_setSlipFirst_no_match entries acc.sigSamples hno
    simp only [UbxEpochAccumulator.onRxmMeasx, hc, Option.getD_some, hf]
    rw [← hc]
  · intro acc itow entries hc hno
    have hf := foldl_setSlipFirst_no_match entries acc.sigSamples hno
    simp only [UbxEpochAccumulator.onRxmMeasx, hc, Option.getD_none, hf]

/-- C6 witness: the amended statement at concrete inputs — a non-matching
update leaves the buffer of `accOpen` alone and is a complete no-op on the
whole state, and on the fresh state it only adopts the tag. -/
theorem onRxmMeasx_spec_witness :
    UbxEpochAccumulator.setSlipFirst accOpen.sigSamples 9 9 true = accOpen.sigSamples ∧
    accOpen.onRxmMeasx 7 [⟨9, 9, true⟩] = accOpen ∧
    accFresh.onRxmMeasx 7 [⟨9, 9, true⟩] = { accFresh with currentItow := some 7 } := by
  refine ⟨onRxmMeasx_spec.1 accOpen.sigSamples 9 9 true (by decide),
    onRxmMeasx_spec.2.2.1 accOpen 7 [⟨9, 9, true⟩] 1 rfl (by decide),
    onRxmMeasx_spec.2.2.2 accFresh 7 [⟨9, 9, true⟩] rfl (by decide)⟩

/-! ### Bounds of the epoch features -/

lemma fracAbove70Of_bounds (sats : List SatSample) :
    0 ≤ fracAbove70Of sats ∧ fracAbove70Of sats ≤ 1 := by
  by_cases hp : 0 < numTrackedOf sats
  · rw [fracAbove70Of, if_pos hp]
    have hden : (0 : ℚ) < (max 1 (numTrackedOf sats) : ℚ) := by
      exact_mod_cast lt_of_lt_of_le Nat.one_pos (le_max_left 1 (numTrackedOf sats))
    constructor
    · exact div_nonneg (by positivity) hden.le
    · rw [div_le_one hden]
      have h1 : (sats.filter (fun s => decide (70 ≤ s.elevDeg ∧ 0 < s.cn0))).length
          ≤ numTrackedOf sats := by
        rw [numTrackedOf, ← List.countP_eq_length_filter, ← List.countP_eq_length_filter]
        exact List.countP_mono_left (fun s _ hs => by
          simp only [decide_eq_true_eq] at hs ⊢
          exact hs.2)
      calc ((sats.filter (fun s => decide (70 ≤ s.elevDeg ∧ 0 < s.cn0))).length : ℚ)
          ≤ (numTrackedOf sats : ℚ) := by exact_mod_cast h1
        _ ≤ (max 1 (numTrackedOf sats) : ℚ) := by
            exact_mod_cast le_max_right 1 (numTrackedOf sats)
  · rw [fracAbove70Of, if_neg hp]
    norm_num

lemma dualBandFracOf_bounds (sigs : List SigSample) :
    0 ≤ dualBandFracOf sigs ∧ dualBandFracOf sigs ≤ 1 := by
  by_cases h : (sigKeys sigs).length = 0
  · rw [dualBandFracOf, if_pos h]
    norm_num
  · rw [dualBandFracOf, if_neg h]
    have hl : 0 < (sigKeys sigs).length := Nat.pos_of_ne_zero h
    have hl' : (0 : ℚ) < ((sigKeys sigs).length : ℚ) := by exact_mod_cast hl
    constructor
    · exact div_nonneg (by positivity) hl'.le
    · rw [div_le_one hl']
      exact_mod_cast List.countP_le_length
        (fun k => decide (2 ≤ (freqIdsOf sigs k).length))

lemma noSlipFracOf_bounds (sigs : List SigSample) :
    0 ≤ noSlipFracOf sigs ∧ noSlipFracOf sigs ≤ 1 := by
  by_cases h : sigs.length = 0
  · rw [noSlipFracOf, if_pos h]
    norm_num
  · rw [noSlipFracOf, if_neg h]
    have hl : 0 < sigs.length := Nat.pos_of_ne_zero h
    have hl' : (0 : ℚ) < (sigs.length : ℚ) := by exact_mod_cast hl
    constructor
    · exact div_nonneg (by positivity) hl'.le
    · rw [div_le_one hl']
      exact_mod_cast List.countP_le_length (fun g : SigSample => !g.hasCycleSlip)

lemma elevWeightedCoverageOf_bounds (sats : List SatSample)
    (h : ∀ s ∈ sats, 0 ≤ s.elevDeg ∧ s.elevDeg ≤ 90) :
    0 ≤ elevWeightedCoverageOf sats ∧ elevWeightedCoverageOf sats ≤ 1 := by
  simp only [elevWeightedCoverageOf]
  have hs : ∀ s ∈ sats.filter (fun s => decide (0 < s.cn0)),
      0 ≤ (s.cn0 : ℝ) * Real.sin ((s.elevDeg : ℝ) * π / 180) ∧
      (s.cn0 : ℝ) * Real.sin ((s.elevDeg : ℝ) * π / 180) ≤ (s.cn0 : ℝ) := by
    intro s hsl
    obtain ⟨hmem, hcn⟩ := List.mem_filter.1 hsl
    have hcn' : (0 : ℚ) < s.cn0 := of_decide_eq_true hcn
    obtain ⟨he0, he90⟩ := h s hmem
    have hθ0 : 0 ≤ (s.elevDeg : ℝ) * π / 180 := by
      apply div_nonneg (mul_nonneg ?_ Real.pi_pos.le) (by norm_num)
      exact_mod_cast he0
    have hθπ : (s.elevDeg : ℝ) * π / 180 ≤ π := by
      have h90 : (s.elevDeg : ℝ) ≤ 90 := by exact_mod_cast he90
      have hπ := Real.pi_pos
      rw [div_le_iff₀ (by norm_num : (0 : ℝ) < 180)]
      nlinarith
    have hsin0 : 0 ≤ Real.sin ((s.elevDeg : ℝ) * π / 180) :=
      Real.sin_nonneg_of_nonneg_of_le_pi hθ0 hθπ
    have hsin1 : Real.sin ((s.elevDeg : ℝ) * π / 180) ≤ 1 := Real.sin_le_one _
    have hc0 : (0 : ℝ) ≤ (s.cn0 : ℝ) := by exact_mod_cast hcn'.le
    exact ⟨mul_nonneg hc0 hsin0, by nlinarith⟩
  have hnum0 : 0 ≤ ((sats.filter (fun s => decide (0 < s.cn0))).map
      (fun s => (s.cn0 : ℝ) * Real.sin ((s.elevDeg : ℝ) * π / 180))).sum := by
    apply List.sum_nonneg
    intro x hx
    obtain ⟨s, hsl, rfl⟩ := List.mem_map.1 hx
    exact (hs s hsl).1
  have hnumden : ((sats.filter (fun s => decide (0 < s.cn0))).map
      (fun s => (s.cn0 : ℝ) * Real.sin ((s.elevDeg : ℝ) * π / 180))).sum ≤
      ((sats.filter (fun s => decide (0 < s.cn0))).map (fun s => (s.cn0 : ℝ))).sum :=
    List.sum_le_sum (fun s hsl => (hs s hsl).2)
  by_cases hden : 0 < ((sats.filter (fun s => decide (0 < s.cn0))).map
      (fun s => (s.cn0 : ℝ))).sum
  · rw [if_pos hden]
    exact ⟨div_nonneg hnum0 hden.le, (div_le_one hden).2 hnumden⟩
  · rw [if_neg hden]
    norm_num

/-- C3: for every buffer whose satellite elevations respect the data-model
range `[0, 90]`, the built features satisfy: `numTracked` counts exactly the
satellite samples with `cn0 > 0`, and `fracAbove70`, `elevWeightedCoverage`,
`dualBandFrac` and `noSlipFrac` all lie in `[0, 1]`. -/
theorem buildFeatures_bounds (acc : UbxEpochAccumulator) (itow : ℤ)
    (h : ∀ s ∈ acc.satSamples, 0 ≤ s.elevDeg ∧ s.elevDeg ≤ 90) :
    (acc.buildFeatures itow).numTracked
        = acc.satSamples.countP (fun s => decide (0 < s.cn0)) ∧
    (0 ≤ (acc.buildFeatures itow).fracAbove70 ∧
      (acc.buildFeatures itow).fracAbove70 ≤ 1) ∧
    (0 ≤ (acc.buildFeatures itow).elevWeightedCoverage ∧
      (acc.buildFeatures itow).elevWeightedCoverage ≤ 1) ∧
    (0 ≤ (acc.buildFeatures itow).dualBandFrac ∧
      (acc.buildFeatures itow).dualBandFrac ≤ 1) ∧
    (0 ≤ (acc.buildFeatures itow).noSlipFrac ∧
      (acc.buildFeatures itow).noSlipFrac ≤ 1) :=
  ⟨(List.countP_eq_length_filter _ _).symm,
    fracAbove70Of_bounds acc.satSamples,
    elevWeightedCoverageOf_bounds acc.satSamples h,
    dualBandFracOf_bounds acc.sigSamples,
    noSlipFracOf_bounds acc.sigSamples⟩

/-- C3 witness: the bounds at the concrete state `accOpen`, whose single
satellite sample has elevation `80 ∈ [0, 90]`. -/
theorem buildFeatures_bounds_witness :
    (accOpen.buildFeatures 1).numTracked
        = accOpen.satSamples.countP (fun s => decide (0 < s.cn0)) ∧
    (0 ≤ (accOpen.buildFeatures 1).fracAbove70 ∧
      (accOpen.buildFeatures 1).fracAbove70 ≤ 1) ∧
    (0 ≤ (accOpen.buildFeatures 1).elevWeightedCoverage ∧
      (accOpen.buildFeatures 1).elevWeightedCoverage ≤ 1) ∧
    (0 ≤ (accOpen.buildFeatures 1).dualBandFrac ∧
      (accOpen.buildFeatures 1).dualBandFrac ≤ 1) ∧
    (0 ≤ (accOpen.buildFeatures 1).noSlipFrac ∧
      (accOpen.buildFeatures 1).noSlipFrac ≤ 1) :=
  buildFeatures_bounds accOpen 1 (by decide)

/-! ### Scenario A: concrete feature build -/

/-- The Scenario A satellite buffer. -/
def satsA : List SatSample :=
  [⟨0, 1, 80, 0, 40, some (1/2), false⟩, ⟨0, 2, 10, 0, 45, some (3/2), false⟩]

/-- The Scenario A signal buffer: satellite 1 on two bands (its first entry
carrying the cycle slip), satellite 2 on one band. -/
def sigsA : List SigSample :=
  [⟨0, 1, 0, 40, true, true, some 80, 0⟩,
   ⟨0, 1, 1, 40, true, false, some 80, 1⟩,
   ⟨0, 2, 0, 40, true, false, some 10, 0⟩]

/-- The Scenario A accumulator state. -/
def accA : UbxEpochAccumulator := ⟨"A", some 1000, satsA, sigsA, none, none⟩

lemma elevWeightedCoverageOf_satsA :
    elevWeightedCoverageOf satsA =
      (40 * Real.sin (80 * π / 180) + 45 * Real.sin (10 * π / 180)) / 85 := by
  norm_num [elevWeightedCoverageOf, satsA]

lemma cos_sin_near_pi_div_18 (y : ℝ) (h1 : (0.174532 : ℝ) < y) (h2 : y < 0.174533) :
    ((0.98472 : ℝ) < Real.cos y ∧ Real.cos y < 0.984819) ∧
    ((0.173597 : ℝ) < Real.sin y ∧ Real.sin y < 0.173696) := by
  have hy0 : (0 : ℝ) < y := by linarith
  have habs : |y| ≤ 1 := by rw [abs_of_pos hy0]; linarith
  have hcos := Real.cos_bound habs
  have hsin := Real.sin_bound habs
  rw [abs_of_pos hy0, abs_le] at hcos hsin
  obtain ⟨hc1, hc2⟩ := hcos
  obtain ⟨hs1, hs2⟩ := hsin
  have hy2sq : y ^ 2 < 0.030462 := by nlinarith
  have hy2sq' : (0.030461 : ℝ) < y ^ 2 := by nlinarith
  have hy3 : y ^ 3 < 0.0053167 := by nlinarith
  have hy3' : (0.0053164 : ℝ) < y ^ 3 := by nlinarith
  have hy4 : y ^ 4 < 0.000928 := by nlinarith
  have hy4' : (0 : ℝ) < y ^ 4 := by positivity
  exact ⟨⟨by nlinarith, by nlinarith⟩, by nlinarith, by nlinarith⟩

lemma elevWeightedCoverageOf_satsA_bounds :
    0.555 < elevWeightedCoverageOf satsA ∧ elevWeightedCoverageOf satsA < 0.556 := by
  rw [elevWeightedCoverageOf_satsA]
  have h80 : (80 : ℝ) * π / 180 = π / 2 - π / 18 := by ring
  have h10 : (10 : ℝ) * π / 180 = π / 18 := by ring
  rw [h80, h10, Real.sin_pi_div_two_sub]
  have hy1 : (0.174532 : ℝ) < π / 18 := by
    have hπl := Real.pi_gt_d6
    norm_num at hπl ⊢
    linarith
  have hy2 : π / 18 < (0.174533 : ℝ) := by
    have hπu := Real.pi_lt_d6
    norm_num at hπu ⊢
    linarith
  obtain ⟨⟨hcl, hcu⟩, hsl, hsu⟩ := cos_sin_near_pi_div_18 (π / 18) hy1 hy2
  constructor
  · rw [lt_div_iff₀ (by norm_num : (0 : ℝ) < 85)]
    nlinarith
  · rw [div_lt_iff₀ (by norm_num : (0 : ℝ) < 85)]
    nlinarith

/-- C2 counterexample: on the Scenario A buffers (three buffered signal
samples, exactly one carrying a cycle slip), `buildFeatures` does not return
`noSlipFrac = 0.75` — the fraction of slip-free signal samples is `2/3`. -/
theorem scenarioA_noSlipFrac_ne :
    (accA.buildFeatures 1000).noSlipFrac ≠ 3 / 4 := by
  show noSlipFracOf sigsA ≠ 3 / 4
  norm_num [noSlipFracOf, sigsA, List.countP, List.countP.go]

/-- C2 (amended): on the Scenario A buffers, `buildFeatures` returns
`numTracked = 2`, `meanCn0 = 42.5`, `fracAbove70 = 0.5`,
`elevWeightedCoverage` within `(0.555, 0.556)`, `meanAbsPrRes = 1`,
`highElevCn0Std = 0`, `dualBandFrac = 0.5`, and `noSlipFrac = 2/3` (not the
`0.75` the scenario states: one slip among three signal samples). -/
theorem scenarioA_features :
    (accA.buildFeatures 1000).numTracked = 2 ∧
    (accA.buildFeatures 1000).meanCn0 = 85 / 2 ∧
    (accA.buildFeatures 1000).fracAbove70 = 1 / 2 ∧
    (0.555 < (accA.buildFeatures 1000).elevWeightedCoverage ∧
      (accA.buildFeatures 1000).elevWeightedCoverage < 0.556) ∧
    (accA.buildFeatures 1000).meanAbsPrRes = 1 ∧
    (accA.buildFeatures 1000).highElevCn0Std = 0 ∧
    (accA.buildFeatures 1000).dualBandFrac = 1 / 2 ∧
    (accA.buildFeatures 1000).noSlipFrac = 2 / 3 := by
  refine ⟨?_, ?_, ?_, ?_, ?_, ?_, ?_, ?_⟩
  · show numTrackedOf satsA = 2
    decide
  · show meanCn0Of satsA = 85 / 2
    norm_num [meanCn0Of, numTrackedOf, satsA]
  · show fracAbove70Of satsA = 1 / 2
    norm_num [fracAbove70Of, numTrackedOf, satsA]
  · show 0.555 < elevWeightedCoverageOf satsA ∧ elevWeightedCoverageOf satsA < 0.556
    exact elevWeightedCoverageOf_satsA_bounds
  · show meanAbsPrResOf satsA = 1
    norm_num [meanAbsPrResOf, satsA, List.filterMap_cons, List.filterMap_nil]
    rw [abs_of_nonneg (by norm_num : (0 : ℚ) ≤ 1 / 2),
      abs_of_nonneg (by norm_num : (0 : ℚ) ≤ 3 / 2)]
    norm_num
  · show highElevCn0StdOf satsA = 0
    rw [highElevCn0StdOf]
    have h : highElevCn0VarOf satsA = 0 := by
      norm_num [highElevCn0VarOf, highElevCn0ValsOf, satsA]
    rw [h]
    norm_num
  · show dualBandFracOf sigsA = 1 / 2
    norm_num [dualBandFracOf, sigKeys, freqIdsOf, sigsA, List.dedup,
      List.countP, List.countP.go]
  · show noSlipFracOf sigsA = 2 / 3
    norm_num [noSlipFracOf, sigsA, List.countP, List.countP.go]

/-! ### Score aggregation -/

lemma collectRows_go (lab : String) (fld : Row → Option ℚ)
    (proj : FieldLists → List ℚ)
    (hpush : ∀ st r, proj (pushRow st r) = proj st ++ (fld r).toList) :
    ∀ (rows : List Row) (st : FieldLists),
      proj (rows.foldl (fun st r => if r.label = lab then pushRow st r else st) st)
        = proj st ++ (rows.filter (fun r => decide (r.label = lab))).filterMap fld := by
  intro rows
  induction rows with
  | nil => intro st; simp
  | cons r rest ih =>
    intro st
    simp only [List.foldl_cons, List.filter_cons]
    by_cases h : r.label = lab
    · rw [if_pos h, ih (pushRow st r), hpush]
      have hd : decide (r.label = lab) = true := by simp [h]
      rw [hd]
      simp only [if_true]
      cases hf : fld r <;> simp [List.filterMap_cons, hf, List.append_assoc]
    · rw [if_neg h, ih st]
      simp [h]

lemma collectRows_field (lab : String) (fld : Row → Option ℚ)
    (proj : FieldLists → List ℚ)
    (hpush : ∀ st r, proj (pushRow st r) = proj st ++ (fld r).toList)
    (hempty : proj emptyFieldLists = []) (rows : List Row) :
    proj (collectRows rows lab)
      = (rows.filter (fun r => decide (r.label = lab))).filterMap fld := by
  rw [collectRows, collectRows_go lab fld proj hpush rows emptyFieldLists, hempty,
    List.nil_append]

lemma avg_eq_fallback_style (x : List ℚ) (d : ℚ) :
    avg x d = if x = [] then d else x.sum / (x.length : ℚ) := by
  cases x with
  | nil => simp [avg]
  | cons a l => simp [avg]

lemma filter_label_idem (rows : List Row) (lab : String) :
    (rows.filter (fun r => decide (r.label = lab))).filter
        (fun r => decide (r.label = lab))
      = rows.filter (fun r => decide (r.label = lab)) := by
  rw [List.filter_filter]
  congr 1
  funext r
  exact Bool.and_self _

/-- C8: the aggregation phase restricts to the rows of the given label, takes
the per-field arithmetic mean, and substitutes exactly the fixed fallbacks
`meanAbsPrRes to 10`, `highElevCn0Std to 4`, `pdop to 3`, `tdop to 2`,
`noSlipFrac to 1`, and `0` elsewhere when no matching row supplies a value;
consequently rows carrying a different label never affect the result. -/
theorem scoreFromAggregates_spec (rows : List Row) (lab : String) (w : ScoreWeights) :
    aggregatesOf rows lab =
      { aNumTracked := specFieldMean rows lab Row.numTracked 0
        aMeanCn0 := specFieldMean rows lab Row.meanCn0 0
        aFracAbove70 := specFieldMean rows lab Row.fracAbove70 0
        aElevWeightedCoverage := specFieldMean rows lab Row.elevWeightedCoverage 0
        aMeanAbsPrRes := specFieldMean rows lab Row.meanAbsPrRes 10
        aHighElevCn0Std := specFieldMean rows lab Row.highElevCn0Std 4
        aDualBandFrac := specFieldMean rows lab Row.dualBandFrac 0
        aPdop := specFieldMean rows lab Row.pdop 3
        aTdop := specFieldMean rows lab Row.tdop 2
        aNoSlipFrac := specFieldMean rows lab Row.noSlipFrac 1 } ∧
    scoreFromAggregates (rows.filter (fun r => decide (r.label = lab))) lab w
      = scoreFromAggregates rows lab w := by
  constructor
  · simp only [aggregatesOf, Aggregates.mk.injEq, specFieldMean]
    refine ⟨?_, ?_, ?_, ?_, ?_, ?_, ?_, ?_, ?_, ?_⟩ <;>
      first
      | rw [collectRows_field lab Row.numTracked FieldLists.numTracked
            (fun _ _ => rfl) rfl rows, avg_eq_fallback_style]
      | rw [collectRows_field lab Row.meanCn0 FieldLists.meanCn0
            (fun _ _ => rfl) rfl rows, avg_eq_fallback_style]
      | rw [collectRows_field lab Row.fracAbove70 FieldLists.fracAbove70
            (fun _ _ => rfl) rfl rows, avg_eq_fallback_style]
      | rw [collectRows_field lab Row.elevWeightedCoverage FieldLists.elevWeightedCoverage
            (fun _ _ => rfl) rfl rows, avg_eq_fallback_style]
      | rw [collectRows_field lab Row.meanAbsPrRes FieldLists.meanAbsPrRes
            (fun _ _ => rfl) rfl rows, avg_eq_fallback_style]
      | rw [collectRows_field lab Row.highElevCn0Std FieldLists.highElevCn0Std
            (fun _ _ => rfl) rfl rows, avg_eq_fallback_style]
      | rw [collectRows_field lab Row.dualBandFrac FieldLists.dualBandFrac
            (fun _ _ => rfl) rfl rows, avg_eq_fallback_style]
      | rw [collectRows_field lab Row.pdop FieldLists.pdop
            (fun _ _ => rfl) rfl rows, avg_eq_fallback_style]
      | rw [collectRows_field lab Row.tdop FieldLists.tdop
            (fun _ _ => rfl) rfl rows, avg_eq_fallback_style]
      | rw [collectRows_field lab Row.noSlipFrac FieldLists.noSlipFrac
            (fun _ _ => rfl) rfl rows, avg_eq_fallback_style]
  · have hagg : aggregatesOf (rows.filter (fun r => decide (r.label = lab))) lab
        = aggregatesOf rows lab := by
      simp only [aggregatesOf, Aggregates.mk.injEq]
      refine ⟨?_, ?_, ?_, ?_, ?_, ?_, ?_, ?_, ?_, ?_⟩ <;>
        first
        | rw [collectRows_field lab Row.numTracked FieldLists.numTracked
              (fun _ _ => rfl) rfl, collectRows_field lab Row.numTracked
              FieldLists.numTracked (fun _ _ => rfl) rfl, filter_label_idem]
        | rw [collectRows_field lab Row.meanCn0 FieldLists.meanCn0
              (fun _ _ => rfl) rfl, collectRows_field lab Row.meanCn0
              FieldLists.meanCn0 (fun _ _ => rfl) rfl, filter_label_idem]
        | rw [collectRows_field lab Row.fracAbove70 FieldLists.fracAbove70
              (fun _ _ => rfl) rfl, collectRows_field lab Row.fracAbove70
              FieldLists.fracAbove70 (fun _ _ => rfl) rfl, filter_label_idem]
        | rw [collectRows_field lab Row.elevWeightedCoverage FieldLists.elevWeightedCoverage
              (fun _ _ => rfl) rfl, collectRows_field lab Row.elevWeightedCoverage
              FieldLists.elevWeightedCoverage (fun _ _ => rfl) rfl, filter_label_idem]
        | rw [collectRows_field lab Row.meanAbsPrRes FieldLists.meanAbsPrRes
              (fun _ _ => rfl) rfl, collectRows_field lab Row.meanAbsPrRes
              FieldLists.meanAbsPrRes (fun _ _ => rfl) rfl, filter_label_idem]
        | rw [collectRows_field lab Row.highElevCn0Std FieldLists.highElevCn0Std
              (fun _ _ => rfl) rfl, collectRows_field lab Row.highElevCn0Std
              FieldLists.highElevCn0Std (fun _ _ => rfl) rfl, filter_label_idem]
        | rw [collectRows_field lab Row.dualBandFrac FieldLists.dualBandFrac
              (fun _ _ => rfl) rfl, collectRows_field lab Row.dualBandFrac
              FieldLists.dualBandFrac (fun _ _ => rfl) rfl, filter_label_idem]
        | rw [collectRows_field lab Row.pdop FieldLists.pdop
              (fun _ _ => rfl) rfl, collectRows_field lab Row.pdop
              FieldLists.pdop (fun _ _ => rfl) rfl, filter_label_idem]
        | rw [collectRows_field lab Row.tdop FieldLists.tdop
              (fun _ _ => rfl) rfl, collectRows_field lab Row.tdop
              FieldLists.tdop (fun _ _ => rfl) rfl, filter_label_idem]
        | rw [collectRows_field lab Row.noSlipFrac FieldLists.noSlipFrac
              (fun _ _ => rfl) rfl, collectRows_field lab Row.noSlipFrac
              FieldLists.noSlipFrac (fun _ _ => rfl) rfl, filter_label_idem]
    rw [scoreFromAggregates, scoreFromAggregates, hagg]

/-! ### Zero-weight non-interference -/

lemma filterMap_filter_congr (lab : String) (fld : Row → Option ℚ)
    {rows rows' : List Row}
    (h : List.Forall₂ (fun r r' => r.label = r'.label ∧ fld r = fld r') rows rows') :
    (rows.filter (fun r => decide (r.label = lab))).filterMap fld
      = (rows'.filter (fun r => decide (r.label = lab))).filterMap fld := by
  induction h with
  | nil => rfl
  | cons hab htail ih =>
    rename_i a b l1 l2
    obtain ⟨hlab, hfld⟩ := hab
    simp only [List.filter_cons, hlab]
    by_cases hb : b.label = lab
    · have hd : decide (b.label = lab) = true := by simp [hb]
      rw [hd]
      simp only [if_true]
      rw [List.filterMap_cons, List.filterMap_cons, hfld, ih]
    · have hd : decide (b.label = lab) = false := by simp [hb]
      rw [hd]
      simp only [Bool.false_eq_true, if_false]
      exact ih

lemma collect_congr (lab : String) (fld : Row → Option ℚ) (proj : FieldLists → List ℚ)
    (hpush : ∀ st r, proj (pushRow st r) = proj st ++ (fld r).toList)
    (hempty : proj emptyFieldLists = [])
    {rows rows' : List Row}
    (h : List.Forall₂ (fun r r' => r.label = r'.label ∧ fld r = fld r') rows rows') :
    proj (collectRows rows lab) = proj (collectRows rows' lab) := by
  rw [collectRows_field lab fld proj hpush hempty,
    collectRows_field lab fld proj hpush hempty]
  exact filterMap_filter_congr lab fld h

/-- Row agreement on the label and every feature column except `numTracked`. -/
abbrev agreeExceptNumTracked (r r' : Row) : Prop :=
  r.label = r'.label ∧ r.meanCn0 = r'.meanCn0 ∧ r.fracAbove70 = r'.fracAbove70 ∧
  r.elevWeightedCoverage = r'.elevWeightedCoverage ∧ r.meanAbsPrRes = r'.meanAbsPrRes ∧
  r.highElevCn0Std = r'.highElevCn0Std ∧ r.dualBandFrac = r'.dualBandFrac ∧
  r.pdop = r'.pdop ∧ r.tdop = r'.tdop ∧ r.noSlipFrac = r'.noSlipFrac

/-- Row agreement on the label and every feature column except `meanCn0`. -/
abbrev agreeExceptMeanCn0 (r r' : Row) : Prop :=
  r.label = r'.label ∧ r.numTracked = r'.numTracked ∧ r.fracAbove70 = r'.fracAbove70 ∧
  r.elevWeightedCoverage = r'.elevWeightedCoverage ∧ r.meanAbsPrRes = r'.meanAbsPrRes ∧
  r.highElevCn0Std = r'.highElevCn0Std ∧ r.dualBandFrac = r'.dualBandFrac ∧
  r.pdop = r'.pdop ∧ r.tdop = r'.tdop ∧ r.noSlipFrac = r'.noSlipFrac

/-- Row agreement on the label and every feature column except the multipath
inputs `meanAbsPrRes` and `highElevCn0Std`. -/
abbrev agreeExceptMultipath (r r' : Row) : Prop :=
  r.label = r'.label ∧ r.numTracked = r'.numTracked ∧ r.meanCn0 = r'.meanCn0 ∧
  r.fracAbove70 = r'.fracAbove70 ∧ r.elevWeightedCoverage = r'.elevWeightedCoverage ∧
  r.dualBandFrac = r'.dualBandFrac ∧ r.pdop = r'.pdop ∧ r.tdop = r'.tdop ∧
  r.noSlipFrac = r'.noSlipFrac

/-- Row agreement on the label and every feature column except `dualBandFrac`. -/
abbrev agreeExceptDualBand (r r' : Row) : Prop :=
  r.label = r'.label ∧ r.numTracked = r'.numTracked ∧ r.meanCn0 = r'.meanCn0 ∧
  r.fracAbove70 = r'.fracAbove70 ∧ r.elevWeightedCoverage = r'.elevWeightedCoverage ∧
  r.meanAbsPrRes = r'.meanAbsPrRes ∧ r.highElevCn0Std = r'.highElevCn0Std ∧
  r.pdop = r'.pdop ∧ r.tdop = r'.tdop ∧ r.noSlipFrac = r'.noSlipFrac

/-- Row agreement on the label and every feature column except the sky-view
inputs `fracAbove70` and `elevWeightedCoverage`. -/
abbrev agreeExceptSkyView (r r' : Row) : Prop :=
  r.label = r'.label ∧ r.numTracked = r'.numTracked ∧ r.meanCn0 = r'.meanCn0 ∧
  r.meanAbsPrRes = r'.meanAbsPrRes ∧ r.highElevCn0Std = r'.highElevCn0Std ∧
  r.dualBandFrac = r'.dualBandFrac ∧ r.pdop = r'.pdop ∧ r.tdop = r'.tdop ∧
  r.noSlipFrac = r'.noSlipFrac

/-- Row agreement on the label and every feature column except the geometry
inputs `pdop` and `tdop`. -/
abbrev agreeExceptGeometry (r r' : Row) : Prop :=
  r.label = r'.label ∧ r.numTracked = r'.numTracked ∧ r.meanCn0 = r'.meanCn0 ∧
  r.fracAbove70 = r'.fracAbove70 ∧ r.elevWeightedCoverage = r'.elevWeightedCoverage ∧
  r.meanAbsPrRes = r'.meanAbsPrRes ∧ r.highElevCn0Std = r'.highElevCn0Std ∧
  r.dualBandFrac = r'.dualBandFrac ∧ r.noSlipFrac = r'.noSlipFrac

/-- Row agreement on the label and every feature column except `noSlipFrac`. -/
abbrev agreeExceptNoSlip (r r' : Row) : Prop :=
  r.label = r'.label ∧ r.numTracked = r'.numTracked ∧ r.meanCn0 = r'.meanCn0 ∧
  r.fracAbove70 = r'.fracAbove70 ∧ r.elevWeightedCoverage = r'.elevWeightedCoverage ∧
  r.meanAbsPrRes = r'.meanAbsPrRes ∧ r.highElevCn0Std = r'.highElevCn0Std ∧
  r.dualBandFrac = r'.dualBandFrac ∧ r.pdop = r'.pdop ∧ r.tdop = r'.tdop

lemma summary_congr_satAvail (lab : String) (w : ScoreWeights) (a a' : Aggregates)
    (h2 : a.aMeanCn0 = a'.aMeanCn0) (h3 : a.aFracAbove70 = a'.aFracAbove70)
    (h4 : a.aElevWeightedCoverage = a'.aElevWeightedCoverage)
    (h5 : a.aMeanAbsPrRes = a'.aMeanAbsPrRes) (h6 : a.aHighElevCn0Std = a'.aHighElevCn0Std)
    (h7 : a.aDualBandFrac = a'.aDualBandFrac) (h8 : a.aPdop = a'.aPdop)
    (h9 : a.aTdop = a'.aTdop) (h10 : a.aNoSlipFrac = a'.aNoSlipFrac)
    (hw : w.satelliteAvailability = 0) :
    (scoresOfAggregates lab a w).summaryScore = (scoresOfAggregates lab a' w).summaryScore := by
  simp only [scoresOfAggregates]
  rw [h2, h3, h4, h5, h6, h7, h8, h9, h10, hw]
  ring

lemma summary_congr_signal (lab : String) (w : ScoreWeights) (a a' : Aggregates)
    (h1 : a.aNumTracked = a'.aNumTracked) (h3 : a.aFracAbove70 = a'.aFracAbove70)
    (h4 : a.aElevWeightedCoverage = a'.aElevWeightedCoverage)
    (h5 : a.aMeanAbsPrRes = a'.aMeanAbsPrRes) (h6 : a.aHighElevCn0Std = a'.aHighElevCn0Std)
    (h7 : a.aDualBandFrac = a'.aDualBandFrac) (h8 : a.aPdop = a'.aPdop)
    (h9 : a.aTdop = a'.aTdop) (h10 : a.aNoSlipFrac = a'.aNoSlipFrac)
    (hw : w.signalQuality = 0) :
    (scoresOfAggregates lab a w).summaryScore = (scoresOfAggregates lab a' w).summaryScore := by
  simp only [scoresOfAggregates]
  rw [h1, h3, h4, h5, h6, h7, h8, h9, h10, hw]
  ring

lemma summary_congr_multipath (lab : String) (w : ScoreWeights) (a a' : Aggregates)
    (h1 : a.aNumTracked = a'.aNumTracked) (h2 : a.aMeanCn0 = a'.aMeanCn0)
    (h3 : a.aFracAbove70 = a'.aFracAbove70)
    (h4 : a.aElevWeightedCoverage = a'.aElevWeightedCoverage)
    (h7 : a.aDualBandFrac = a'.aDualBandFrac) (h8 : a.aPdop = a'.aPdop)
    (h9 : a.aTdop = a'.aTdop) (h10 : a.aNoSlipFrac = a'.aNoSlipFrac)
    (hw : w.multipathResistance = 0) :
    (scoresOfAggregates lab a w).summaryScore = (scoresOfAggregates lab a' w).summaryScore := by
  simp only [scoresOfAggregates]
  rw [h1, h2, h3, h4, h7, h8, h9, h10, hw]
  ring

lemma summary_congr_dualBand (lab : String) (w : ScoreWeights) (a a' : Aggregates)
    (h1 : a.aNumTracked = a'.aNumTracked) (h2 : a.aMeanCn0 = a'.aMeanCn0)
    (h3 : a.aFracAbove70 = a'.aFracAbove70)
    (h4 : a.aElevWeightedCoverage = a'.aElevWeightedCoverage)
    (h5 : a.aMeanAbsPrRes = a'.aMeanAbsPrRes) (h6 : a.aHighElevCn0Std = a'.aHighElevCn0Std)
    (h8 : a.aPdop = a'.aPdop) (h9 : a.aTdop = a'.aTdop)
    (h10 : a.aNoSlipFrac = a'.aNoSlipFrac)
    (hw : w.dualBandCoverage = 0) :
    (scoresOfAggregates lab a w).summaryScore = (scoresOfAggregates lab a' w).summaryScore := by
  simp only [scoresOfAggregates]
  rw [h1, h2, h3, h4, h5, h6, h8, h9, h10, hw]
  ring

lemma summary_congr_skyView (lab : String) (w : ScoreWeights) (a a' : Aggregates)
    (h1 : a.aNumTracked = a'.aNumTracked) (h2 : a.aMeanCn0 = a'.aMeanCn0)
    (h5 : a.aMeanAbsPrRes = a'.aMeanAbsPrRes) (h6 : a.aHighElevCn0Std = a'.aHighElevCn0Std)
    (h7 : a.aDualBandFrac = a'.aDualBandFrac) (h8 : a.aPdop = a'.aPdop)
    (h9 : a.aTdop = a'.aTdop) (h10 : a.aNoSlipFrac = a'.aNoSlipFrac)
    (hw : w.skyView = 0) :
    (scoresOfAggregates lab a w).summaryScore = (scoresOfAggregates lab a' w).summaryScore := by
  simp only [scoresOfAggregates]
  rw [h1, h2, h5, h6, h7, h8, h9, h10, hw]
  ring

lemma summary_congr_geometry (lab : String) (w : ScoreWeights) (a a' : Aggregates)
    (h1 : a.aNumTracked = a'.aNumTracked) (h2 : a.aMeanCn0 = a'.aMeanCn0)
    (h3 : a.aFracAbove70 = a'.aFracAbove70)
    (h4 : a.aElevWeightedCoverage = a'.aElevWeightedCoverage)
    (h5 : a.aMeanAbsPrRes = a'.aMeanAbsPrRes) (h6 : a.aHighElevCn0Std = a'.aHighElevCn0Std)
    (h7 : a.aDualBandFrac = a'.aDualBandFrac) (h10 : a.aNoSlipFrac = a'.aNoSlipFrac)
    (hw : w.geometryQuality = 0) :
    (scoresOfAggregates lab a w).summaryScore = (scoresOfAggregates lab a' w).summaryScore := by
  simp only [scoresOfAggregates]
  rw [h1, h2, h3, h4, h5, h6, h7, h10, hw]
  ring

lemma summary_congr_lock (lab : String) (w : ScoreWeights) (a a' : Aggregates)
    (h1 : a.aNumTracked = a'.aNumTracked) (h2 : a.aMeanCn0 = a'.aMeanCn0)
    (h3 : a.aFracAbove70 = a'.aFracAbove70)
    (h4 : a.aElevWeightedCoverage = a'.aElevWeightedCoverage)
    (h5 : a.aMeanAbsPrRes = a'.aMeanAbsPrRes) (h6 : a.aHighElevCn0Std = a'.aHighElevCn0Std)
    (h7 : a.aDualBandFrac = a'.aDualBandFrac) (h8 : a.aPdop = a'.aPdop)
    (h9 : a.aTdop = a'.aTdop)
    (hw : w.lockContinuity = 0) :
    (scoresOfAggregates lab a w).summaryScore = (scoresOfAggregates lab a' w).summaryScore := by
  simp only [scoresOfAggregates]
  rw [h1, h2, h3, h4, h5, h6, h7, h8, h9, hw]
  ring

lemma agg_numTracked_congr (lab : String) {rows rows' : List Row}
    (h : List.Forall₂ (fun r r' => r.label = r'.label ∧ r.numTracked = r'.numTracked)
      rows rows') :
    (aggregatesOf rows lab).aNumTracked = (aggregatesOf rows' lab).aNumTracked :=
  congrArg (fun l => avg l 0)
    (collect_congr lab Row.numTracked FieldLists.numTracked (fun _ _ => rfl) rfl h)

lemma agg_meanCn0_congr (lab : String) {rows rows' : List Row}
    (h : List.Forall₂ (fun r r' => r.label = r'.label ∧ r.meanCn0 = r'.meanCn0)
      rows rows') :
    (aggregatesOf rows lab).aMeanCn0 = (aggregatesOf rows' lab).aMeanCn0 :=
  congrArg (fun l => avg l 0)
    (collect_congr lab Row.meanCn0 FieldLists.meanCn0 (fun _ _ => rfl) rfl h)

lemma agg_fracAbove70_congr (lab : String) {rows rows' : List Row}
    (h : List.Forall₂ (fun r r' => r.label = r'.label ∧ r.fracAbove70 = r'.fracAbove70)
      rows rows') :
    (aggregatesOf rows lab).aFracAbove70 = (aggregatesOf rows' lab).aFracAbove70 :=
  congrArg (fun l => avg l 0)
    (collect_congr lab Row.fracAbove70 FieldLists.fracAbove70 (fun _ _ => rfl) rfl h)

lemma agg_elevWeightedCoverage_congr (lab : String) {rows rows' : List Row}
    (h : List.Forall₂
      (fun r r' => r.label = r'.label ∧ r.elevWeightedCoverage = r'.elevWeightedCoverage)
      rows rows') :
    (aggregatesOf rows lab).aElevWeightedCoverage
      = (aggregatesOf rows' lab).aElevWeightedCoverage :=
  congrArg (fun l => avg l 0)
    (collect_congr lab Row.elevWeightedCoverage FieldLists.elevWeightedCoverage
      (fun _ _ => rfl) rfl h)

lemma agg_meanAbsPrRes_congr (lab : String) {rows rows' : List Row}
    (h : List.Forall₂ (fun r r' => r.label = r'.label ∧ r.meanAbsPrRes = r'.meanAbsPrRes)
      rows rows') :
    (aggregatesOf rows lab).aMeanAbsPrRes = (aggregatesOf rows' lab).aMeanAbsPrRes :=
  congrArg (fun l => avg l 10)
    (collect_congr lab Row.meanAbsPrRes FieldLists.meanAbsPrRes (fun _ _ => rfl) rfl h)

lemma agg_highElevCn0Std_congr (lab : String) {rows rows' : List Row}
    (h : List.Forall₂ (fun r r' => r.label = r'.label ∧ r.highElevCn0Std = r'.highElevCn0Std)
      rows rows') :
    (aggregatesOf rows lab).aHighElevCn0Std = (aggregatesOf rows' lab).aHighElevCn0Std :=
  congrArg (fun l => avg l 4)
    (collect_congr lab Row.highElevCn0Std FieldLists.highElevCn0Std (fun _ _ => rfl) rfl h)

lemma agg_dualBandFrac_congr (lab : String) {rows rows' : List Row}
    (h : List.Forall₂ (fun r r' => r.label = r'.label ∧ r.dualBandFrac = r'.dualBandFrac)
      rows rows') :
    (aggregatesOf rows lab).aDualBandFrac = (aggregatesOf rows' lab).aDualBandFrac :=
  congrArg (fun l => avg l 0)
    (collect_congr lab Row.dualBandFrac FieldLists.dualBandFrac (fun _ _ => rfl) rfl h)

lemma agg_pdop_congr (lab : String) {rows rows' : List Row}
    (h : List.Forall₂ (fun r r' => r.label = r'.label ∧ r.pdop = r'.pdop) rows rows') :
    (aggregatesOf rows lab).aPdop = (aggregatesOf rows' lab).aPdop :=
  congrArg (fun l => avg l 3)
    (collect_congr lab Row.pdop FieldLists.pdop (fun _ _ => rfl) rfl h)

lemma agg_tdop_congr (lab : String) {rows rows' : List Row}
    (h : List.Forall₂ (fun r r' => r.label = r'.label ∧ r.tdop = r'.tdop) rows rows') :
    (aggregatesOf rows lab).aTdop = (aggregatesOf rows' lab).aTdop :=
  congrArg (fun l => avg l 2)
    (collect_congr lab Row.tdop FieldLists.tdop (fun _ _ => rfl) rfl h)

lemma agg_noSlipFrac_congr (lab : String) {rows rows' : List Row}
    (h : List.Forall₂ (fun r r' => r.label = r'.label ∧ r.noSlipFrac = r'.noSlipFrac)
      rows rows') :
    (aggregatesOf rows lab).aNoSlipFrac = (aggregatesOf rows' lab).aNoSlipFrac :=
  congrArg (fun l => avg l 1)
    (collect_congr lab Row.noSlipFrac FieldLists.noSlipFrac (fun _ _ => rfl) rfl h)

/-- C7: with non-negative weights of which at least one is positive, the
weight sum that `scoreFromAggregates` divides by is positive (no division
error), and the summary score does not depend on any feature column feeding a
zero-weighted component: two row tables that differ only in such columns
yield the same summary score, component by component. -/
theorem scoreFromAggregates_zero_weight (w : ScoreWeights)
    (hnn : 0 ≤ w.satelliteAvailability ∧ 0 ≤ w.signalQuality ∧
      0 ≤ w.multipathResistance ∧ 0 ≤ w.dualBandCoverage ∧ 0 ≤ w.skyView ∧
      0 ≤ w.geometryQuality ∧ 0 ≤ w.lockContinuity)
    (hpos : 0 < w.satelliteAvailability ∨ 0 < w.signalQuality ∨
      0 < w.multipathResistance ∨ 0 < w.dualBandCoverage ∨ 0 < w.skyView ∨
      0 < w.geometryQuality ∨ 0 < w.lockContinuity) :
    0 < totalWeightOf w ∧
    (∀ rows rows' lab, List.Forall₂ agreeExceptNumTracked rows rows' →
      w.satelliteAvailability = 0 →
      (scoreFromAggregates rows lab w).summaryScore
        = (scoreFromAggregates rows' lab w).summaryScore) ∧
    (∀ rows rows' lab, List.Forall₂ agreeExceptMeanCn0 rows rows' →
      w.signalQuality = 0 →
      (scoreFromAggregates rows lab w).summaryScore
        = (scoreFromAggregates rows' lab w).summaryScore) ∧
    (∀ rows rows' lab, List.Forall₂ agreeExceptMultipath rows rows' →
      w.multipathResistance = 0 →
      (scoreFromAggregates rows lab w).summaryScore
        = (scoreFromAggregates rows' lab w).summaryScore) ∧
    (∀ rows rows' lab, List.Forall₂ agreeExceptDualBand rows rows' →
      w.dualBandCoverage = 0 →
      (scoreFromAggregates rows lab w).summaryScore
        = (scoreFromAggregates rows' lab w).summaryScore) ∧
    (∀ rows rows' lab, List.Forall₂ agreeExceptSkyView rows rows' →
      w.skyView = 0 →
      (scoreFromAggregates rows lab w).summaryScore
        = (scoreFromAggregates rows' lab w).summaryScore) ∧
    (∀ rows rows' lab, List.Forall₂ agreeExceptGeometry rows rows' →
      w.geometryQuality = 0 →
      (scoreFromAggregates rows lab w).summaryScore
        = (scoreFromAggregates rows' lab w).summaryScore) ∧
    (∀ rows rows' lab, List.Forall₂ agreeExceptNoSlip rows rows' →
      w.lockContinuity = 0 →
      (scoreFromAggregates rows lab w).summaryScore
        = (scoreFromAggregates rows' lab w).summaryScore) := by
  obtain ⟨c1, c2, c3, c4, c5, c6, c7⟩ := hnn
  refine ⟨?_, ?_, ?_, ?_, ?_, ?_, ?_, ?_⟩
  · rw [totalWeightOf]
    rcases hpos with h | h | h | h | h | h | h <;> linarith
  · intro rows rows' lab h hw
    rw [scoreFromAggregates, scoreFromAggregates]
    exact summary_congr_satAvail lab w _ _
      (agg_meanCn0_congr lab (h.imp (fun a b hr => ⟨hr.1, hr.2.1⟩)))
      (agg_fracAbove70_congr lab (h.imp (fun a b hr => ⟨hr.1, hr.2.2.1⟩)))
      (agg_elevWeightedCoverage_congr lab (h.imp (fun a b hr => ⟨hr.1, hr.2.2.2.1⟩)))
      (agg_meanAbsPrRes_congr lab (h.imp (fun a b hr => ⟨hr.1, hr.2.2.2.2.1⟩)))
      (agg_highElevCn0Std_congr lab (h.imp (fun a b hr => ⟨hr.1, hr.2.2.2.2.2.1⟩)))
      (agg_dualBandFrac_congr lab (h.imp (fun a b hr => ⟨hr.1, hr.2.2.2.2.2.2.1⟩)))
      (agg_pdop_congr lab (h.imp (fun a b hr => ⟨hr.1, hr.2.2.2.2.2.2.2.1⟩)))
      (agg_tdop_congr lab (h.imp (fun a b hr => ⟨hr.1, hr.2.2.2.2.2.2.2.2.1⟩)))
      (agg_noSlipFrac_congr lab (h.imp (fun a b hr => ⟨hr.1, hr.2.2.2.2.2.2.2.2.2⟩)))
      hw
  · intro rows rows' lab h hw
    rw [scoreFromAggregates, scoreFromAggregates]
    exact summary_congr_signal lab w _ _
      (agg_numTracked_congr lab (h.imp (fun a b hr => ⟨hr.1, hr.2.1⟩)))
      (agg_fracAbove70_congr lab (h.imp (fun a b hr => ⟨hr.1, hr.2.2.1⟩)))
      (agg_elevWeightedCoverage_congr lab (h.imp (fun a b hr => ⟨hr.1, hr.2.2.2.1⟩)))
      (agg_meanAbsPrRes_congr lab (h.imp (fun a b hr => ⟨hr.1, hr.2.2.2.2.1⟩)))
      (agg_highElevCn0Std_congr lab (h.imp (fun a b hr => ⟨hr.1, hr.2.2.2.2.2.1⟩)))
      (agg_dualBandFrac_congr lab (h.imp (fun a b hr => ⟨hr.1, hr.2.2.2.2.2.2.1⟩)))
      (agg_pdop_congr lab (h.imp (fun a b hr => ⟨hr.1, hr.2.2.2.2.2.2.2.1⟩)))
      (agg_tdop_congr lab (h.imp (fun a b hr => ⟨hr.1, hr.2.2.2.2.2.2.2.2.1⟩)))
      (agg_noSlipFrac_congr lab (h.imp (fun a b hr => ⟨hr.1, hr.2.2.2.2.2.2.2.2.2⟩)))
      hw
  · intro rows rows' lab h hw
    rw [scoreFromAggregates, scoreFromAggregates]
    exact summary_congr_multipath lab w _ _
      (agg_numTracked_congr lab (h.imp (fun a b hr => ⟨hr.1, hr.2.1⟩)))
      (agg_meanCn0_congr lab (h.imp (fun a b hr => ⟨hr.1, hr.2.2.1⟩)))
      (agg_fracAbove70_congr lab (h.imp (fun a b hr => ⟨hr.1, hr.2.2.2.1⟩)))
      (agg_elevWeightedCoverage_congr lab (h.imp (fun a b hr => ⟨hr.1, hr.2.2.2.2.1⟩)))
      (agg_dualBandFrac_congr lab (h.imp (fun a b hr => ⟨hr.1, hr.2.2.2.2.2.1⟩)))
      (agg_pdop_congr lab (h.imp (fun a b hr => ⟨hr.1, hr.2.2.2.2.2.2.1⟩)))
      (agg_tdop_congr lab (h.imp (fun a b hr => ⟨hr.1, hr.2.2.2.2.2.2.2.1⟩)))
      (agg_noSlipFrac_congr lab (h.imp (fun a b hr => ⟨hr.1, hr.2.2.2.2.2.2.2.2⟩)))
      hw
  · intro rows rows' lab h hw
    rw [scoreFromAggregates, scoreFromAggregates]
    exact summary_congr_dualBand lab w _ _
      (agg_numTracked_congr lab (h.imp (fun a b hr => ⟨hr.1, hr.2.1⟩)))
      (agg_meanCn0_congr lab (h.imp (fun a b hr => ⟨hr.1, hr.2.2.1⟩)))
      (agg_fracAbove70_congr lab (h.imp (fun a b hr => ⟨hr.1, hr.2.2.2.1⟩)))
      (agg_elevWeightedCoverage_congr lab (h.imp (fun a b hr => ⟨hr.1, hr.2.2.2.2.1⟩)))
      (agg_meanAbsPrRes_congr lab (h.imp (fun a b hr => ⟨hr.1, hr.2.2.2.2.2.1⟩)))
      (agg_highElevCn0Std_congr lab (h.imp (fun a b hr => ⟨hr.1, hr.2.2.2.2.2.2.1⟩)))
      (agg_pdop_congr lab (h.imp (fun a b hr => ⟨hr.1, hr.2.2.2.2.2.2.2.1⟩)))
      (agg_tdop_congr lab (h.imp (fun a b hr => ⟨hr.1, hr.2.2.2.2.2.2.2.2.1⟩)))
      (agg_noSlipFrac_congr lab (h.imp (fun a b hr => ⟨hr.1, hr.2.2.2.2.2.2.2.2.2⟩)))
      hw
  · intro rows rows' lab h hw
    rw [scoreFromAggregates, scoreFromAggregates]
    exact summary_congr_skyView lab w _ _
      (agg_numTracked_congr lab (h.imp (fun a b hr => ⟨hr.1, hr.2.1⟩)))
      (agg_meanCn0_congr lab (h.imp (fun a b hr => ⟨hr.1, hr.2.2.1⟩)))
      (agg_meanAbsPrRes_congr lab (h.imp (fun a b hr => ⟨hr.1, hr.2.2.2.1⟩)))
      (agg_highElevCn0Std_congr lab (h.imp (fun a b hr => ⟨hr.1, hr.2.2.2.2.1⟩)))
      (agg_dualBandFrac_congr lab (h.imp (fun a b hr => ⟨hr.1, hr.2.2.2.2.2.1⟩)))
      (agg_pdop_congr lab (h.imp (fun a b hr => ⟨hr.1, hr.2.2.2.2.2.2.1⟩)))
      (agg_tdop_congr lab (h.imp (fun a b hr => ⟨hr.1, hr.2.2.2.2.2.2.2.1⟩)))
      (agg_noSlipFrac_congr lab (h.imp (fun a b hr => ⟨hr.1, hr.2.2.2.2.2.2.2.2⟩)))
      hw
  · intro rows rows' lab h hw
    rw [scoreFromAggregates, scoreFromAggregates]
    exact summary_congr_geometry lab w _ _
      (agg_numTracked_congr lab (h.imp (fun a b hr => ⟨hr.1, hr.2.1⟩)))
      (agg_meanCn0_congr lab (h.imp (fun a b hr => ⟨hr.1, hr.2.2.1⟩)))
      (agg_fracAbove70_congr lab (h.imp (fun a b hr => ⟨hr.1, hr.2.2.2.1⟩)))
      (agg_elevWeightedCoverage_congr lab (h.imp (fun a b hr => ⟨hr.1, hr.2.2.2.2.1⟩)))
      (agg_meanAbsPrRes_congr lab (h.imp (fun a b hr => ⟨hr.1, hr.2.2.2.2.2.1⟩)))
      (agg_highElevCn0Std_congr lab (h.imp (fun a b hr => ⟨hr.1, hr.2.2.2.2.2.2.1⟩)))
      (agg_dualBandFrac_congr lab (h.imp (fun a b hr => ⟨hr.1, hr.2.2.2.2.2.2.2.1⟩)))
      (agg_noSlipFrac_congr lab (h.imp (fun a b hr => ⟨hr.1, hr.2.2.2.2.2.2.2.2⟩)))
      hw
  · intro rows rows' lab h hw
    rw [scoreFromAggregates, scoreFromAggregates]
    exact summary_congr_lock lab w _ _
      (agg_numTracked_congr lab (h.imp (fun a b hr => ⟨hr.1, hr.2.1⟩)))
      (agg_meanCn0_congr lab (h.imp (fun a b hr => ⟨hr.1, hr.2.2.1⟩)))
      (agg_fracAbove70_congr lab (h.imp (fun a b hr => ⟨hr.1, hr.2.2.2.1⟩)))
      (agg_elevWeightedCoverage_congr lab (h.imp (fun a b hr => ⟨hr.1, hr.2.2.2.2.1⟩)))
      (agg_meanAbsPrRes_congr lab (h.imp (fun a b hr => ⟨hr.1, hr.2.2.2.2.2.1⟩)))
      (agg_highElevCn0Std_congr lab (h.imp (fun a b hr => ⟨hr.1, hr.2.2.2.2.2.2.1⟩)))
      (agg_dualBandFrac_congr lab (h.imp (fun a b hr => ⟨hr.1, hr.2.2.2.2.2.2.2.1⟩)))
      (agg_pdop_congr lab (h.imp (fun a b hr => ⟨hr.1, hr.2.2.2.2.2.2.2.2.1⟩)))
      (agg_tdop_congr lab (h.imp (fun a b hr => ⟨hr.1, hr.2.2.2.2.2.2.2.2.2⟩)))
      hw

/-- Weights putting everything on lock continuity, used by the C7 witness. -/
def wOnlyLock : ScoreWeights := ⟨0, 0, 0, 0, 0, 0, 1⟩

/-- A concrete feature row, used by the C7 witness. -/
def rowB : Row :=
  ⟨"X", some 10, some 40, some (1/2), some (1/2), some 1, some 1, some 0,
    some 2, some 1, some 1⟩

/-- `rowB` with only its `dualBandFrac` column changed. -/
def rowB' : Row :=
  ⟨"X", some 10, some 40, some (1/2), some (1/2), some 1, some 1, some (3/4),
    some 2, some 1, some 1⟩

/-- C7 witness: with the all-on-lock weights the weight sum is positive, and
changing only the zero-weighted dual-band column (from `rowB` to `rowB'`)
leaves the summary score unchanged. -/
theorem scoreFromAggregates_zero_weight_witness :
    0 < totalWeightOf wOnlyLock ∧
    (scoreFromAggregates [rowB] "X" wOnlyLock).summaryScore
      = (scoreFromAggregates [rowB'] "X" wOnlyLock).summaryScore := by
  have h := scoreFromAggregates_zero_weight wOnlyLock
    (by norm_num [wOnlyLock])
    (Or.inr (Or.inr (Or.inr (Or.inr (Or.inr (Or.inr (by norm_num [wOnlyLock])))))))
  exact ⟨h.1, h.2.2.2.2.1 [rowB] [rowB'] "X"
    (List.Forall₂.cons ⟨rfl, rfl, rfl, rfl, rfl, rfl, rfl, rfl, rfl, rfl⟩ List.Forall₂.nil)
    rfl⟩
